import Mathlib

/-!
Verification of the rust-libretro environment-dispatch layer.

This file gives a shallow embedding, in Lean, of the parts of the
rust-libretro repository that the checked properties are about:

* the typed marshaling primitives of src/rust-libretro/src/environment.rs
  (get, get_unchecked, get_mut, get_path, set, set_ptr);
* the VFS wrappers and their version gate
  (src/rust-libretro/src/contexts/mod.rs and contexts/macros.rs);
* the RunContext input, frame and framebuffer operations;
* the lifecycle dispatcher entry points of src/rust-libretro/src/lib.rs
  (retro_run, retro_serialize_size, retro_load_game_special);
* the scoped-context conversions generated by the into_generic macro;
* the legacy core-options variable encoding generated by
  rust-libretro-proc (impl_derive_core_options).

Rust machine integers are modelled as Nat or Int with explicit wrapping
where the code truncates; nullable C pointers as Option; fallible Rust
functions returning Result as Except.  Host callbacks are modelled as
explicit function arguments, and the number of calls issued through a
host interface is returned alongside the result where a property counts
such calls.
-/

/-! ## Error taxonomy (src/rust-libretro/src/error.rs) -/

/-- Embedding of enum StringError of error.rs. -/
inductive StringError where
  | nullPointer (what : String)
  | nonUTF8
  | stringContainsNull
  deriving DecidableEq, Repr

/-- Embedding of enum VfsError of error.rs (the constructors used here). -/
inductive VfsError where
  | failedToOpen (path : String)
  | failedToClose
  | versionMismatch (supported required : Nat)
  | statInvalidPath (path : String)
  | failedToCreateDirectory (path : String)
  | unexpectedValue (value : Int)
  deriving DecidableEq, Repr

/-- Embedding of enum EnvironmentCallError of error.rs (the constructors used here). -/
inductive EnvironmentCallError where
  | stringError (e : StringError)
  | nullPointer (what : String)
  | nullPointer2 (what : String)
  | failure
  | unsupported (reason : String)
  | failedToEnable (what : String)
  | interfaceNotFound (name hint : String)
  | vfsError (e : VfsError)
  deriving DecidableEq, Repr

/-! ## Marshaling primitives (src/rust-libretro/src/environment.rs)

The environment callback `retro_environment_t` is an optional opaque C
function taking a command id and a data pointer and returning a bool.
The marshaling layer passes a typed value through it and reads the
possibly mutated value back.  We model a callback for payload type A
as a pure function from the command id and the incoming payload to the
outgoing payload and the success bool; absence of the callback is None. -/

/-- Model of `retro_environment_t` specialised to payload type A. -/
def EnvCallback (A : Type) : Type := Option (Nat → A → A × Bool)

namespace environment

/-- Embedding of `environment::get_mut`: passes the caller-supplied value
to the callback and returns the mutated value; NullPointer when the
callback is absent, Failure when it returns false. -/
def get_mut {A : Type} (callback : EnvCallback A) (id : Nat) (data : A) :
    Except EnvironmentCallError A :=
  match callback with
  | none => .error (.nullPointer "retro_environment_t")
  | some f =>
    let r := f id data
    match r.2 with
    | true => .ok r.1
    | false => .error .failure

/-- Embedding of `environment::get`: get_mut seeded with the Default value. -/
def get {A : Type} [Inhabited A] (callback : EnvCallback A) (id : Nat) :
    Except EnvironmentCallError A :=
  get_mut callback id default

/-- Embedding of `environment::get_unchecked`: get_mut seeded with zeroed
memory.  The zeroed bit pattern of the payload type is passed explicitly. -/
def get_unchecked {A : Type} (callback : EnvCallback A) (id : Nat) (zeroed : A) :
    Except EnvironmentCallError A :=
  get_mut callback id zeroed

/-- Embedding of `environment::set_ptr`: passes a value to the callback and
interprets its bool; no data is read back. -/
def set_ptr {A : Type} (callback : EnvCallback A) (id : Nat) (ptr : A) :
    Except EnvironmentCallError Unit :=
  match callback with
  | none => .error (.nullPointer "retro_environment_t")
  | some f =>
    match (f id ptr).2 with
    | true => .ok ()
    | false => .error .failure

/-- Embedding of `environment::set`: set_ptr on the address of the value. -/
def set {A : Type} (callback : EnvCallback A) (id : Nat) (value : A) :
    Except EnvironmentCallError Unit :=
  set_ptr callback id value

/-- Embedding of `util::get_path_from_pointer` (unix branch): a null pointer
fails, any other nul-terminated byte string converts losslessly.  A C string
pointer is modelled as Option String, None being null. -/
def get_path_from_pointer (ptr : Option String) : Except StringError String :=
  match ptr with
  | none => .error (.nullPointer "string pointer")
  | some s => .ok s

/-- Embedding of `environment::get_path`: queries a string pointer through
get_mut (seeded with null) and converts it into a path. -/
def get_path (callback : EnvCallback (Option String)) (id : Nat) :
    Except EnvironmentCallError String :=  match get_mut callback id none with
  | .error e => .error e
  | .ok ptr =>
    match get_path_from_pointer ptr with
    | .error e => .error (.stringError e)
    | .ok p => .ok p

end environment

/-! ## Interface registry and VFS wrappers
(src/rust-libretro/src/contexts/mod.rs, contexts/macros.rs)

The registry entry for the VFS holds the negotiated version and the
optional host interface table.  Each table entry is an optional host
function, modelled as a pure function; a wrapper result is paired with
the number of calls it issued through the host interface. -/

/-- A directory handle handed out by the host (opaque). -/
abbrev VfsDirHandle : Type := Nat

/-- Embedding of the host struct retro_vfs_interface, restricted to the
function pointers used by the version-3 operations.  Each field models
one optional host function pointer. -/
structure RetroVfsInterface where
  stat : Option (String → Int × Nat)
  mkdir : Option (String → Int)
  opendir : Option (String → Bool → Option VfsDirHandle)
  readdir : Option (VfsDirHandle → Bool)
  dirent_get_name : Option (VfsDirHandle → Option String)
  dirent_is_dir : Option (VfsDirHandle → Bool)
  closedir : Option (VfsDirHandle → Int)

/-- Embedding of struct VfsInterfaceInfo of types.rs. -/
structure VfsInterfaceInfo where
  supported_version : Nat
  interface : Option RetroVfsInterface

/-- The shared interface registry, restricted to the VFS slot
(the field read by the get_vfs_function macro). -/
structure Interfaces where
  vfs_interface_info : VfsInterfaceInfo

/-- Embedding of `CString::new`: fails iff the string contains a nul byte. -/
def cstring_new (s : String) : Except StringError String :=
  if s.contains (Char.ofNat 0) then .error .stringContainsNull else .ok s

/-- Embedding of `util::get_cstring_from_pointer`. -/
def get_cstring_from_pointer (ptr : Option String) : Except StringError String :=
  match ptr with
  | none => .error (.nullPointer "string pointer")
  | some s => .ok s

/-- Embedding of enum VfsMkdirStatus. -/
inductive VfsMkdirStatus where
  | success
  | exists
  deriving DecidableEq, Repr

/-- Embedding of enum VfsReadDirStatus. -/
inductive VfsReadDirStatus where
  | success
  | alreadyOnLastEntry
  deriving DecidableEq, Repr

namespace contexts

/-- Embedding of the version-gated arm of the get_vfs_function macro of
contexts/macros.rs: a required version above the negotiated one yields
VersionMismatch before the interface is even looked up; then the
interface slot must be populated (InterfaceNotFound otherwise) and the
requested function pointer non-null (NullPointer otherwise). -/
def get_vfs_function {F : Type} (interfaces : Interfaces) (fn_name : String)
    (select : RetroVfsInterface → Option F) (version : Nat) :
    Except EnvironmentCallError F :=
  if interfaces.vfs_interface_info.supported_version < version then
    .error (.vfsError (.versionMismatch interfaces.vfs_interface_info.supported_version version))
  else
    match interfaces.vfs_interface_info.interface with
    | none => .error (.interfaceNotFound "VFS" "enable_vfs_interface()")
    | some interface =>
      match select interface with
      | none => .error (.nullPointer fn_name)
      | some f => .ok f

/-- Embedding of `GenericContext::vfs_stat`.  The second component counts
the calls issued through the host VFS interface.  The strict-bitflags
feature is off (the default), so validate_bitflags accepts any value. -/
def vfs_stat (interfaces : Interfaces) (path : String) :
    (Except EnvironmentCallError (Int × Nat)) × Nat :=
  match get_vfs_function interfaces "stat" (fun i => i.stat) 3 with
  | .error e => (.error e, 0)
  | .ok stat =>
    match cstring_new path with
    | .error e => (.error (.stringError e), 0)
    | .ok c_path =>
      let r := stat c_path
      if r.1 = 0 then (.error (.vfsError (.statInvalidPath path)), 1)
      else (.ok (r.1, r.2), 1)

/-- Embedding of `GenericContext::vfs_mkdir`. -/
def vfs_mkdir (interfaces : Interfaces) (dir : String) :
    (Except EnvironmentCallError VfsMkdirStatus) × Nat :=
  match get_vfs_function interfaces "mkdir" (fun i => i.mkdir) 3 with
  | .error e => (.error e, 0)
  | .ok mkdir =>
    match cstring_new dir with
    | .error e => (.error (.stringError e), 0)
    | .ok c_dir =>
      let result := mkdir c_dir
      if result = 0 then (.ok .success, 1)
      else if result = -2 then (.ok .exists, 1)
      else if result = -1 then (.error (.vfsError (.failedToCreateDirectory dir)), 1)
      else (.error (.vfsError (.unexpectedValue result)), 1)

/-- Embedding of `GenericContext::vfs_opendir`. -/
def vfs_opendir (interfaces : Interfaces) (dir : String) (include_hidden : Bool) :
    (Except EnvironmentCallError VfsDirHandle) × Nat :=
  match get_vfs_function interfaces "opendir" (fun i => i.opendir) 3 with
  | .error e => (.error e, 0)
  | .ok opendir =>
    match cstring_new dir with
    | .error e => (.error (.stringError e), 0)
    | .ok c_dir =>
      match opendir c_dir include_hidden with
      | some handle => (.ok handle, 1)
      | none => (.error (.vfsError (.failedToOpen dir)), 1)

/-- Embedding of `GenericContext::vfs_readdir`. -/
def vfs_readdir (interfaces : Interfaces) (handle : VfsDirHandle) :
    (Except EnvironmentCallError VfsReadDirStatus) × Nat :=
  match get_vfs_function interfaces "readdir" (fun i => i.readdir) 3 with
  | .error e => (.error e, 0)
  | .ok readdir =>
    match readdir handle with
    | true => (.ok .success, 1)
    | false => (.ok .alreadyOnLastEntry, 1)

/-- Embedding of `GenericContext::vfs_dirent_get_name`. -/
def vfs_dirent_get_name (interfaces : Interfaces) (handle : VfsDirHandle) :
    (Except EnvironmentCallError String) × Nat :=
  match get_vfs_function interfaces "dirent_get_name" (fun i => i.dirent_get_name) 3 with
  | .error e => (.error e, 0)
  | .ok dirent_get_name =>
    match get_cstring_from_pointer (dirent_get_name handle) with
    | .error e => (.error (.stringError e), 1)
    | .ok s => (.ok s, 1)

/-- Embedding of `GenericContext::vfs_dirent_is_dir`. -/
def vfs_dirent_is_dir (interfaces : Interfaces) (handle : VfsDirHandle) :
    (Except EnvironmentCallError Bool) × Nat :=
  match get_vfs_function interfaces "dirent_is_dir" (fun i => i.dirent_is_dir) 3 with
  | .error e => (.error e, 0)
  | .ok dirent_is_dir => (.ok (dirent_is_dir handle), 1)

/-- Embedding of `GenericContext::vfs_closedir`. -/
def vfs_closedir (interfaces : Interfaces) (handle : VfsDirHandle) :
    (Except EnvironmentCallError Unit) × Nat :=
  match get_vfs_function interfaces "closedir" (fun i => i.closedir) 3 with
  | .error e => (.error e, 0)
  | .ok closedir =>
    if closedir handle = 0 then (.ok (), 1)
    else (.error (.vfsError .failedToClose), 1)

end contexts

/-! ## RunContext input state (src/rust-libretro/src/contexts/mod.rs)

The joypad device and button identifiers are defined by the generated
libretro ABI bindings (rust-libretro-sys), which are produced at build
time and are not part of the checked sources.  Modelled from the spec:
the canonical button order B, Y, SELECT, START, UP, DOWN, LEFT, RIGHT,
A, X, L, R, L2, R2, L3, R3 with the ABI ids 0 through 15, the joypad
device id 1 and the bitmask query id 256. -/

def RETRO_DEVICE_JOYPAD : Nat := 1
def RETRO_DEVICE_ID_JOYPAD_B : Nat := 0
def RETRO_DEVICE_ID_JOYPAD_Y : Nat := 1
def RETRO_DEVICE_ID_JOYPAD_SELECT : Nat := 2
def RETRO_DEVICE_ID_JOYPAD_START : Nat := 3
def RETRO_DEVICE_ID_JOYPAD_UP : Nat := 4
def RETRO_DEVICE_ID_JOYPAD_DOWN : Nat := 5
def RETRO_DEVICE_ID_JOYPAD_LEFT : Nat := 6
def RETRO_DEVICE_ID_JOYPAD_RIGHT : Nat := 7
def RETRO_DEVICE_ID_JOYPAD_A : Nat := 8
def RETRO_DEVICE_ID_JOYPAD_X : Nat := 9
def RETRO_DEVICE_ID_JOYPAD_L : Nat := 10
def RETRO_DEVICE_ID_JOYPAD_R : Nat := 11
def RETRO_DEVICE_ID_JOYPAD_L2 : Nat := 12
def RETRO_DEVICE_ID_JOYPAD_R2 : Nat := 13
def RETRO_DEVICE_ID_JOYPAD_L3 : Nat := 14
def RETRO_DEVICE_ID_JOYPAD_R3 : Nat := 15
def RETRO_DEVICE_ID_JOYPAD_MASK : Nat := 256

/-- The JoypadState bitflag constants of types.rs, as u16 bit values. -/
def JoypadState.B : Nat := 1
def JoypadState.Y : Nat := 2
def JoypadState.SELECT : Nat := 4
def JoypadState.START : Nat := 8
def JoypadState.UP : Nat := 16
def JoypadState.DOWN : Nat := 32
def JoypadState.LEFT : Nat := 64
def JoypadState.RIGHT : Nat := 128
def JoypadState.A : Nat := 256
def JoypadState.X : Nat := 512
def JoypadState.L : Nat := 1024
def JoypadState.R : Nat := 2048
def JoypadState.L2 : Nat := 4096
def JoypadState.R2 : Nat := 8192
def JoypadState.L3 : Nat := 16384
def JoypadState.R3 : Nat := 32768

/-- Model of `retro_input_state_t`: port, device, index, id to an i16. -/
def InputStateFn : Type := Nat → Nat → Nat → Nat → Int

namespace RunContext

/-- Embedding of `RunContext::get_joypad_state`: sixteen sequential
input-state queries, each non-zero response OR-ing its flag into the
mask, in the order written in the source. -/
def get_joypad_state (input_state_callback : Option InputStateFn)
    (port index : Nat) : Nat :=
  match input_state_callback with
  | some callback =>
    let mask := 0
    let mask := if callback port RETRO_DEVICE_JOYPAD index RETRO_DEVICE_ID_JOYPAD_B ≠ 0 then
      mask ||| JoypadState.B else mask
    let mask := if callback port RETRO_DEVICE_JOYPAD index RETRO_DEVICE_ID_JOYPAD_Y ≠ 0 then
      mask ||| JoypadState.Y else mask
    let mask := if callback port RETRO_DEVICE_JOYPAD index RETRO_DEVICE_ID_JOYPAD_SELECT ≠ 0 then
      mask ||| JoypadState.SELECT else mask
    let mask := if callback port RETRO_DEVICE_JOYPAD index RETRO_DEVICE_ID_JOYPAD_START ≠ 0 then
      mask ||| JoypadState.START else mask
    let mask := if callback port RETRO_DEVICE_JOYPAD index RETRO_DEVICE_ID_JOYPAD_UP ≠ 0 then
      mask ||| JoypadState.UP else mask
    let mask := if callback port RETRO_DEVICE_JOYPAD index RETRO_DEVICE_ID_JOYPAD_DOWN ≠ 0 then
      mask ||| JoypadState.DOWN else mask
    let mask := if callback port RETRO_DEVICE_JOYPAD index RETRO_DEVICE_ID_JOYPAD_LEFT ≠ 0 then
      mask ||| JoypadState.LEFT else mask
    let mask := if callback port RETRO_DEVICE_JOYPAD index RETRO_DEVICE_ID_JOYPAD_RIGHT ≠ 0 then
      mask ||| JoypadState.RIGHT else mask
    let mask := if callback port RETRO_DEVICE_JOYPAD index RETRO_DEVICE_ID_JOYPAD_A ≠ 0 then
      mask ||| JoypadState.A else mask
    let mask := if callback port RETRO_DEVICE_JOYPAD index RETRO_DEVICE_ID_JOYPAD_X ≠ 0 then
      mask ||| JoypadState.X else mask
    let mask := if callback port RETRO_DEVICE_JOYPAD index RETRO_DEVICE_ID_JOYPAD_L ≠ 0 then
      mask ||| JoypadState.L else mask
    let mask := if callback port RETRO_DEVICE_JOYPAD index RETRO_DEVICE_ID_JOYPAD_R ≠ 0 then
      mask ||| JoypadState.R else mask
    let mask := if callback port RETRO_DEVICE_JOYPAD index RETRO_DEVICE_ID_JOYPAD_L2 ≠ 0 then
      mask ||| JoypadState.L2 else mask
    let mask := if callback port RETRO_DEVICE_JOYPAD index RETRO_DEVICE_ID_JOYPAD_R2 ≠ 0 then
      mask ||| JoypadState.R2 else mask
    let mask := if callback port RETRO_DEVICE_JOYPAD index RETRO_DEVICE_ID_JOYPAD_L3 ≠ 0 then
      mask ||| JoypadState.L3 else mask
    let mask := if callback port RETRO_DEVICE_JOYPAD index RETRO_DEVICE_ID_JOYPAD_R3 ≠ 0 then
      mask ||| JoypadState.R3 else mask
    mask
  | none => 0

/-- Embedding of `RunContext::get_joypad_bitmask`: with negotiated bitmask
support a single query is made and cast to u16 (JoypadState covers every
u16 bit, so from_bits_truncate keeps the low sixteen bits); otherwise it
falls back to get_joypad_state. -/
def get_joypad_bitmask (input_state_callback : Option InputStateFn)
    (supports_bitmasks : Bool) (port index : Nat) : Nat :=
  match input_state_callback with
  | some callback =>
    if supports_bitmasks then
      ((callback port RETRO_DEVICE_JOYPAD index RETRO_DEVICE_ID_JOYPAD_MASK).emod 65536).toNat
    else
      get_joypad_state (some callback) port index
  | none => 0

end RunContext

/-- The sixteen (button id, flag bit) pairs in the canonical ABI order,
as stated by the specification. -/
def spec_button_order : List (Nat × Nat) :=
  [(RETRO_DEVICE_ID_JOYPAD_B, JoypadState.B),
   (RETRO_DEVICE_ID_JOYPAD_Y, JoypadState.Y),
   (RETRO_DEVICE_ID_JOYPAD_SELECT, JoypadState.SELECT),
   (RETRO_DEVICE_ID_JOYPAD_START, JoypadState.START),
   (RETRO_DEVICE_ID_JOYPAD_UP, JoypadState.UP),
   (RETRO_DEVICE_ID_JOYPAD_DOWN, JoypadState.DOWN),
   (RETRO_DEVICE_ID_JOYPAD_LEFT, JoypadState.LEFT),
   (RETRO_DEVICE_ID_JOYPAD_RIGHT, JoypadState.RIGHT),
   (RETRO_DEVICE_ID_JOYPAD_A, JoypadState.A),
   (RETRO_DEVICE_ID_JOYPAD_X, JoypadState.X),
   (RETRO_DEVICE_ID_JOYPAD_L, JoypadState.L),
   (RETRO_DEVICE_ID_JOYPAD_R, JoypadState.R),
   (RETRO_DEVICE_ID_JOYPAD_L2, JoypadState.L2),
   (RETRO_DEVICE_ID_JOYPAD_R2, JoypadState.R2),
   (RETRO_DEVICE_ID_JOYPAD_L3, JoypadState.L3),
   (RETRO_DEVICE_ID_JOYPAD_R3, JoypadState.R3)]

/-- Spec-side reference for the bitmask fallback: sixteen sequential
single-button queries issued in the canonical order, each non-zero
response setting the corresponding flag.  Written from the words of the
specification, to be compared with the source-side definitions. -/
def spec_sixteen_queries (callback : InputStateFn) (port index : Nat) : Nat :=
  spec_button_order.foldl
    (fun mask p => if callback port RETRO_DEVICE_JOYPAD index p.1 ≠ 0 then mask ||| p.2 else mask)
    0

/-! ## RunContext frame state and dupe_frame
(src/rust-libretro/src/contexts/mod.rs) -/

/-- The per-session frame bookkeeping fields of RunContext (can_dupe is
copied from the wrapper; had_frame, last_width, last_height and
last_pitch are mutable references into the wrapper). -/
structure FrameState where
  can_dupe : Bool
  had_frame : Bool
  last_width : Nat
  last_height : Nat
  last_pitch : Nat
  deriving DecidableEq, Repr

/-- One invocation of the video-refresh callback: whether the data
pointer was null, and the width, height and pitch arguments. -/
structure VideoRefreshCall where
  data_null : Bool
  width : Nat
  height : Nat
  pitch : Nat
  deriving DecidableEq, Repr

/-- Observable outcome of dupe_frame: the error lines logged, the
video-refresh invocations made, and the frame state afterwards. -/
structure DupeFrameResult where
  logs : List String
  refresh_calls : List VideoRefreshCall
  state : FrameState
  deriving DecidableEq, Repr

namespace RunContext

/-- Embedding of `RunContext::dupe_frame`: refuses (with a logged error)
when duping was never negotiated or no frame has been drawn yet, and
otherwise re-presents the previous frame by calling the video-refresh
callback (when present) with a null data pointer and the recorded
geometry.  The frame state is only read. -/
def dupe_frame (video_refresh_callback_present : Bool) (s : FrameState) :
    DupeFrameResult :=
  if !s.can_dupe then
    { logs := ["[ERROR] This frontend does not support frame duping!"],
      refresh_calls := [], state := s }
  else if !s.had_frame then
    { logs := ["[ERROR] Cannot dupe frame, no previous frame has been drawn!"],
      refresh_calls := [], state := s }
  else if video_refresh_callback_present then
    { logs := [],
      refresh_calls := [⟨true, s.last_width, s.last_height, s.last_pitch⟩],
      state := s }
  else
    { logs := [], refresh_calls := [], state := s }

end RunContext

/-! ## Software framebuffer acquisition
(src/rust-libretro/src/contexts/mod.rs)

The pixel-format helper bit_per_pixel lives in the generated bindings
(rust-libretro-sys), not in the checked sources.  Modelled from the
spec: it is the byte width of one pixel (pitch divided by it recovers
pixels per row), 4 for XRGB8888 and 2 for the two 16-bit formats. -/

/-- retro_pixel_format, as in the libretro ABI. -/
inductive PixelFormat where
  | zeroRGB1555
  | xrgb8888
  | rgb565
  deriving DecidableEq, Repr

/-- Modelled from the spec: bytes per pixel of each format
(the bindings call this bit_per_pixel). -/
def PixelFormat.bit_per_pixel : PixelFormat → Nat
  | .zeroRGB1555 => 2
  | .xrgb8888 => 4
  | .rgb565 => 2

/-- Embedding of the ABI struct retro_framebuffer as filled in by the
host; the data pointer is modelled by its nullness. -/
structure RetroFramebuffer where
  data_null : Bool
  width : Nat
  height : Nat
  pitch : Nat
  format : PixelFormat
  access_flags : Nat
  memory_flags : Nat
  deriving DecidableEq, Repr

/-- Embedding of struct Framebuffer of types.rs (the revision used by
contexts/mod.rs, which carries data_len). -/
structure Framebuffer where
  data_len : Nat
  width : Nat
  height : Nat
  pitch : Nat
  format : PixelFormat
  access_flags : Nat
  memory_flags : Nat
  deriving DecidableEq, Repr

/-- MemoryAccess flag bits (types.rs wraps the ABI constants). -/
def MemoryAccess.READ : Nat := 2
def MemoryAccess.WRITE : Nat := 1
def MemoryType.UNCACHED : Nat := 0

namespace RunContext

/-- Embedding of `RunContext::get_current_framebuffer`: queries the host
through the environment callback with a request pre-filled with the
desired geometry, rejects a null data pointer, and wraps the returned
struct, computing data_len as height times pitch. -/
def get_current_framebuffer (callback : EnvCallback RetroFramebuffer)
    (width height : Nat) (access_flags : Nat) (format : PixelFormat) :
    Except EnvironmentCallError Framebuffer :=
  match environment.get_mut callback 1000
      { data_null := true, width := width, height := height, pitch := 0,
        format := format, access_flags := access_flags, memory_flags := 0 } with
  | .error e => .error e
  | .ok fb =>
    if fb.data_null then .error (.nullPointer "framebuffer.data")
    else
      .ok { data_len := fb.height * fb.pitch,
            width := fb.width, height := fb.height, pitch := fb.pitch,
            format := fb.format, access_flags := fb.access_flags,
            memory_flags := fb.memory_flags }

/-- Embedding of `RunContext::get_current_framebuffer_or_fallback`: on a
host framebuffer whose access flags intersect the requested ones, use
it; otherwise serve the process-wide scratch buffer, growing it to
width times height times pitch bytes, with pitch equal to width times
the per-pixel byte width.  The second component is the scratch-buffer
length before and after (it only grows). -/
def get_current_framebuffer_or_fallback (callback : EnvCallback RetroFramebuffer)
    (width height : Nat) (access_flags : Nat) (format : PixelFormat)
    (fallback_buffer_len : Nat) : Framebuffer × Nat :=
  let fallback : Framebuffer × Nat :=
    let pitch := width * format.bit_per_pixel
    let data_len := width * height * pitch
    let new_len := if fallback_buffer_len < data_len then data_len else fallback_buffer_len
    ({ data_len := data_len, width := width, height := height, pitch := pitch,
       format := format,
       access_flags := MemoryAccess.READ ||| MemoryAccess.WRITE,
       memory_flags := MemoryType.UNCACHED }, new_len)
  match get_current_framebuffer callback width height access_flags format with
  | .ok fb =>
    if fb.access_flags &&& access_flags ≠ 0 then (fb, fallback_buffer_len)
    else fallback
  | .error _ => fallback

end RunContext

/-! ## Lifecycle dispatcher entry points (src/rust-libretro/src/lib.rs) -/

/-- Embedding of the `retro_serialize_size` trampoline generated by the
forward macro: with a live instance it builds a GenericContext and
returns the result of the core handler get_serialize_size unchanged. -/
def retro_serialize_size (core_get_serialize_size : Nat) : Nat :=
  core_get_serialize_size

/-- The sizes a host observes over a sequence of retro_serialize_size
calls whose core answers are the given list. -/
def serialize_size_session (core_sizes : List Nat) : List Nat :=
  core_sizes.map retro_serialize_size

/-- The non-growing-size contract: no later reported size exceeds an
earlier one. -/
def nonGrowing (sizes : List Nat) : Prop :=
  ∀ i j : Fin sizes.length, (i : Nat) ≤ j → sizes.get j ≤ sizes.get i

instance (sizes : List Nat) : Decidable (nonGrowing sizes) := by
  unfold nonGrowing; infer_instance

/-- A declared subsystem: the game-type identifier and the length of its
info array, as registered through set_subsystem_info. -/
structure SubsystemInfo where
  game_type : Nat
  num_info : Nat
  deriving DecidableEq, Repr

/-- Observable outcome of retro_load_game_special: whether the options
changed hook ran, whether the core handler was invoked, and the bool
returned to the host. -/
structure LoadGameSpecialOutcome where
  options_changed_delivered : Bool
  handler_invoked : Bool
  returned : Bool
  deriving DecidableEq, Repr

/-- Embedding of `retro_load_game_special` of lib.rs: a null info pointer
returns false at once; otherwise the options-changed hook runs, the
handler receives game_type and num_info as given, and its Result
becomes the returned bool.  declared_subsystems is the subsystem list
the core registered through set_subsystem_info (environment.rs), which
only forwards that list to the host; the trampoline does not read it. -/
def retro_load_game_special
    (core_on_load_game_special : Nat → Nat → Bool)
    (declared_subsystems : List SubsystemInfo)
    (game_type : Nat) (info_null : Bool) (num_info : Nat) :
    LoadGameSpecialOutcome :=
  if info_null then
    { options_changed_delivered := false, handler_invoked := false, returned := false }
  else
    let status := core_on_load_game_special game_type num_info
    { options_changed_delivered := true, handler_invoked := true, returned := status }

/-- Validation the claim attributes to the trampoline: the game type was
declared and the info-array length matches the declaration. -/
def subsystem_args_valid (declared : List SubsystemInfo) (game_type num_info : Nat) : Bool :=
  declared.any (fun s => s.game_type = game_type && s.num_info = num_info)

/-- The observable steps of one retro_run invocation, in order. -/
inductive RunEvent where
  | optionsChanged
  | inputPoll
  | run
  deriving DecidableEq, Repr

/-- Embedding of `retro_run` of lib.rs: the variable-update query result
decides whether on_options_changed runs first (a failed query counts as
changed); then the input-poll callback fires when present; then on_run. -/
def retro_run_events (variable_update : Except EnvironmentCallError Bool)
    (input_poll_callback_present : Bool) : List RunEvent :=
  (match variable_update with
   | .ok true => [RunEvent.optionsChanged]
   | .ok false => []
   | .error _ => [RunEvent.optionsChanged]) ++
  (if input_poll_callback_present then [RunEvent.inputPoll] else []) ++
  [RunEvent.run]

/-! ## Scoped-context conversions
(src/rust-libretro/src/contexts/macros.rs, contexts/mod.rs)

Every context stores a borrowed reference to the environment callback
slot and an Arc handle to the shared registry; cloning the Arc yields a
handle to the same registry, so the conversion functions generated by
the into_generic macro copy both fields unchanged.  The reference and
handle types are abstract parameters here; the extra per-phase fields
(auxiliary callbacks, frame state, flags) are carried where a context
has them. -/

/-- Embedding of struct GenericContext. -/
structure GenericContext (E R : Type) where
  environment_callback : E
  interfaces : R

/-- Embedding of the contexts declared by make_context (InitContext,
SetEnvironmentContext, GetAvInfoContext, OptionsChangedContext,
LoadGameSpecialContext): callback reference plus registry handle. -/
structure InitContext (E R : Type) where
  environment_callback : E
  interfaces : R

structure SetEnvironmentContext (E R : Type) where
  environment_callback : E
  interfaces : R

structure GetAvInfoContext (E R : Type) where
  environment_callback : E
  interfaces : R

structure OptionsChangedContext (E R : Type) where
  environment_callback : E
  interfaces : R

structure LoadGameSpecialContext (E R : Type) where
  environment_callback : E
  interfaces : R

/-- Embedding of struct LoadGameContext. -/
structure LoadGameContext (E R : Type) where
  environment_callback : E
  interfaces : R

/-- Embedding of struct AudioContext (C : the auxiliary callback slots). -/
structure AudioContext (E R C : Type) where
  environment_callback : E
  interfaces : R
  audio_sample_batch_callback : C
  audio_sample_callback : C

/-- Embedding of struct RunContext with its auxiliary callback slots and
per-frame bookkeeping fields. -/
structure RunContextS (E R C : Type) where
  environment_callback : E
  interfaces : R
  audio_sample_batch_callback : C
  audio_sample_callback : C
  input_poll_callback : C
  input_state_callback : C
  video_refresh_callback : C
  can_dupe : Bool
  had_frame : Bool
  last_width : Nat
  last_height : Nat
  last_pitch : Nat
  supports_bitmasks : Bool

/-- GenericContext::new (contexts/mod.rs). -/
def GenericContext.new {E R : Type} (environment_callback : E) (interfaces : R) :
    GenericContext E R :=
  { environment_callback := environment_callback, interfaces := interfaces }

/-- The From impls generated by into_generic: each copies the callback
reference and clones the registry Arc (same registry). -/
def InitContext.into_generic {E R : Type} (c : InitContext E R) : GenericContext E R :=
  GenericContext.new c.environment_callback c.interfaces

def SetEnvironmentContext.into_generic {E R : Type} (c : SetEnvironmentContext E R) :
    GenericContext E R :=
  GenericContext.new c.environment_callback c.interfaces

def GetAvInfoContext.into_generic {E R : Type} (c : GetAvInfoContext E R) :
    GenericContext E R :=
  GenericContext.new c.environment_callback c.interfaces

def OptionsChangedContext.into_generic {E R : Type} (c : OptionsChangedContext E R) :
    GenericContext E R :=
  GenericContext.new c.environment_callback c.interfaces

def LoadGameSpecialContext.into_generic {E R : Type} (c : LoadGameSpecialContext E R) :
    GenericContext E R :=
  GenericContext.new c.environment_callback c.interfaces

def LoadGameContext.into_generic {E R : Type} (c : LoadGameContext E R) :
    GenericContext E R :=
  GenericContext.new c.environment_callback c.interfaces

def AudioContext.into_generic {E R C : Type} (c : AudioContext E R C) :
    GenericContext E R :=
  GenericContext.new c.environment_callback c.interfaces

def RunContextS.into_generic {E R C : Type} (c : RunContextS E R C) :
    GenericContext E R :=
  GenericContext.new c.environment_callback c.interfaces

/-- The kinds of context types defined in contexts/mod.rs (the aliases
that are type synonyms of GenericContext are the generic kind). -/
inductive CtxKind where
  | generic
  | init
  | setEnvironment
  | getAvInfo
  | optionsChanged
  | loadGame
  | loadGameSpecial
  | run
  | audio
  deriving DecidableEq, Repr

/-- The (source, target) pairs of all From-conversions between context
types written in contexts/mod.rs and generated by its macros: one per
into_generic invocation, plus LoadGameSpecialContext to LoadGameContext
and the mutable RunContext to AudioContext impl. -/
def context_conversions : List (CtxKind × CtxKind) :=
  [(CtxKind.getAvInfo, CtxKind.generic),
   (CtxKind.init, CtxKind.generic),
   (CtxKind.optionsChanged, CtxKind.generic),
   (CtxKind.loadGameSpecial, CtxKind.generic),
   (CtxKind.loadGameSpecial, CtxKind.loadGame),
   (CtxKind.setEnvironment, CtxKind.generic),
   (CtxKind.loadGame, CtxKind.generic),
   (CtxKind.audio, CtxKind.generic),
   (CtxKind.run, CtxKind.generic),
   (CtxKind.run, CtxKind.audio)]

/-! ## Legacy core-options variable encoding
(src/rust-libretro/rust-libretro-proc/src/lib.rs, impl_derive_core_options) -/

/-- One (value, optional label) pair of a core option. -/
structure CoreOptionValue where
  value : String
  label : Option String
  deriving DecidableEq, Repr

/-- A declared core option: key, descriptions, enumerated values and the
optional declared default. -/
structure CoreOption where
  key : String
  desc : String
  info : String
  values : List CoreOptionValue
  default_value : Option String
  deriving DecidableEq, Repr

/-- Embedding of the core_variables arm of impl_derive_core_options: the
legacy retro_variable value string is the description, a semicolon and
a space, then the option values joined with a pipe, in declared order. -/
def legacy_variable_value (option : CoreOption) : String :=
  option.desc ++ "; " ++ String.intercalate "|" (option.values.map (fun v => v.value))

/-- The full legacy retro_variable entry: key and value string. -/
def legacy_variable (option : CoreOption) : String × String :=
  (option.key, legacy_variable_value option)

/-- Helper for the host model: the characters after the first
semicolon-space separator, none when there is no separator. -/
def after_desc : List Char → Option (List Char)
  | ';' :: ' ' :: rest => some rest
  | _ :: rest => after_desc rest
  | [] => none

/-- Helper for the host model: the characters before the first pipe. -/
def take_until_pipe : List Char → List Char
  | [] => []
  | '|' :: _ => []
  | c :: rest => c :: take_until_pipe rest

/-- Modelled from the spec: a host that is ignorant of defaults parses
the legacy value string by splitting the description off at the first
semicolon-space and offers the first pipe-separated token. -/
def host_offered_token (value_string : String) : Option String :=
  match after_desc value_string.data with
  | none => none
  | some rest => some (String.mk (take_until_pipe rest))

/-- The schema of the round-trip property: default "true", values
false, true, unstable. -/
def example_option : CoreOption :=
  { key := "example_key",
    desc := "Example Option",
    info := "",
    values := [{ value := "false", label := none },
               { value := "true", label := none },
               { value := "unstable", label := none }],
    default_value := some "true" }

/-! ## Theorems -/

/-- Claim C1: with bitmask support not negotiated and an input-state
callback present, RunContext.get_joypad_bitmask returns exactly the mask
RunContext.get_joypad_state builds, and both equal the sixteen
single-button queries issued in the canonical ABI order B, Y, SELECT,
START, UP, DOWN, LEFT, RIGHT, A, X, L, R, L2, R2, L3, R3 with each
non-zero response setting the corresponding flag. -/
theorem joypad_bitmask_fallback_eq_sixteen_queries
    (callback : InputStateFn) (port index : Nat) :
    RunContext.get_joypad_bitmask (some callback) false port index
      = RunContext.get_joypad_state (some callback) port index ∧
    RunContext.get_joypad_state (some callback) port index
      = spec_sixteen_queries callback port index := by
  constructor
  · rfl
  · simp only [spec_sixteen_queries, spec_button_order, List.foldl]
    rfl

/-- Claim C2: every VFS operation requiring interface version 3
(vfs_stat, vfs_mkdir, vfs_opendir, vfs_readdir, vfs_dirent_get_name,
vfs_dirent_is_dir, vfs_closedir) fails with VfsError.VersionMismatch
when the negotiated version is below 3, and issues zero calls through
the host VFS interface. -/
theorem vfs_version_gate (interfaces : Interfaces)
    (path dir : String) (include_hidden : Bool) (handle : VfsDirHandle)
    (hv : interfaces.vfs_interface_info.supported_version < 3) :
    contexts.vfs_stat interfaces path
      = (.error (.vfsError (.versionMismatch interfaces.vfs_interface_info.supported_version 3)), 0) ∧
    contexts.vfs_mkdir interfaces dir
      = (.error (.vfsError (.versionMismatch interfaces.vfs_interface_info.supported_version 3)), 0) ∧
    contexts.vfs_opendir interfaces dir include_hidden
      = (.error (.vfsError (.versionMismatch interfaces.vfs_interface_info.supported_version 3)), 0) ∧
    contexts.vfs_readdir interfaces handle
      = (.error (.vfsError (.versionMismatch interfaces.vfs_interface_info.supported_version 3)), 0) ∧
    contexts.vfs_dirent_get_name interfaces handle
      = (.error (.vfsError (.versionMismatch interfaces.vfs_interface_info.supported_version 3)), 0) ∧
    contexts.vfs_dirent_is_dir interfaces handle
      = (.error (.vfsError (.versionMismatch interfaces.vfs_interface_info.supported_version 3)), 0) ∧
    contexts.vfs_closedir interfaces handle
      = (.error (.vfsError (.versionMismatch interfaces.vfs_interface_info.supported_version 3)), 0) := by
  refine ⟨?_, ?_, ?_, ?_, ?_, ?_, ?_⟩ <;>
    simp [contexts.vfs_stat, contexts.vfs_mkdir, contexts.vfs_opendir,
      contexts.vfs_readdir, contexts.vfs_dirent_get_name,
      contexts.vfs_dirent_is_dir, contexts.vfs_closedir,
      contexts.get_vfs_function, hv]

/-- Witness for C2: a registry that negotiated VFS version 2 with a fully
populated interface table still fails every version-3 operation without
touching the host. -/
theorem vfs_version_gate_witness :
    contexts.vfs_stat
      ⟨⟨2, some ⟨some (fun _ => (1, 0)), some (fun _ => 0), some (fun _ _ => some 0),
        some (fun _ => true), some (fun _ => some "x"), some (fun _ => true),
        some (fun _ => 0)⟩⟩⟩ "save"
      = (.error (.vfsError (.versionMismatch 2 3)), 0) ∧
    contexts.vfs_mkdir
      ⟨⟨2, some ⟨some (fun _ => (1, 0)), some (fun _ => 0), some (fun _ _ => some 0),
        some (fun _ => true), some (fun _ => some "x"), some (fun _ => true),
        some (fun _ => 0)⟩⟩⟩ "dir"
      = (.error (.vfsError (.versionMismatch 2 3)), 0) ∧
    contexts.vfs_opendir
      ⟨⟨2, some ⟨some (fun _ => (1, 0)), some (fun _ => 0), some (fun _ _ => some 0),
        some (fun _ => true), some (fun _ => some "x"), some (fun _ => true),
        some (fun _ => 0)⟩⟩⟩ "dir" true
      = (.error (.vfsError (.versionMismatch 2 3)), 0) ∧
    contexts.vfs_readdir
      ⟨⟨2, some ⟨some (fun _ => (1, 0)), some (fun _ => 0), some (fun _ _ => some 0),
        some (fun _ => true), some (fun _ => some "x"), some (fun _ => true),
        some (fun _ => 0)⟩⟩⟩ (0 : Nat)
      = (.error (.vfsError (.versionMismatch 2 3)), 0) ∧
    contexts.vfs_dirent_get_name
      ⟨⟨2, some ⟨some (fun _ => (1, 0)), some (fun _ => 0), some (fun _ _ => some 0),
        some (fun _ => true), some (fun _ => some "x"), some (fun _ => true),
        some (fun _ => 0)⟩⟩⟩ (0 : Nat)
      = (.error (.vfsError (.versionMismatch 2 3)), 0) ∧
    contexts.vfs_dirent_is_dir
      ⟨⟨2, some ⟨some (fun _ => (1, 0)), some (fun _ => 0), some (fun _ _ => some 0),
        some (fun _ => true), some (fun _ => some "x"), some (fun _ => true),
        some (fun _ => 0)⟩⟩⟩ (0 : Nat)
      = (.error (.vfsError (.versionMismatch 2 3)), 0) ∧
    contexts.vfs_closedir
      ⟨⟨2, some ⟨some (fun _ => (1, 0)), some (fun _ => 0), some (fun _ _ => some 0),
        some (fun _ => true), some (fun _ => some "x"), some (fun _ => true),
        some (fun _ => 0)⟩⟩⟩ (0 : Nat)
      = (.error (.vfsError (.versionMismatch 2 3)), 0) :=
  vfs_version_gate
    ⟨⟨2, some ⟨some (fun _ => (1, 0)), some (fun _ => 0), some (fun _ _ => some 0),
      some (fun _ => true), some (fun _ => some "x"), some (fun _ => true),
      some (fun _ => 0)⟩⟩⟩ "save" "dir" true (0 : Nat) (by decide)

/-- Claim C3: dupe_frame with duping never negotiated or no frame ever
drawn logs an error, performs no video-refresh call and leaves the frame
state (had_frame, last_width, last_height, last_pitch) unchanged.  The
embedding is a total function, so no panic is possible. -/
theorem dupe_frame_precondition (video_refresh_present : Bool) (s : FrameState)
    (h : s.can_dupe = false ∨ s.had_frame = false) :
    (RunContext.dupe_frame video_refresh_present s).logs ≠ [] ∧
    (RunContext.dupe_frame video_refresh_present s).refresh_calls = [] ∧
    (RunContext.dupe_frame video_refresh_present s).state = s := by
  rcases h with h | h <;>
    simp [RunContext.dupe_frame, h]
  rcases hc : s.can_dupe <;> simp [hc]

/-- Witness for C3: a session that negotiated duping but has not drawn a
frame yet, with a video-refresh callback registered. -/
theorem dupe_frame_precondition_witness :
    (RunContext.dupe_frame true ⟨true, false, 320, 240, 640⟩).logs ≠ [] ∧
    (RunContext.dupe_frame true ⟨true, false, 320, 240, 640⟩).refresh_calls = [] ∧
    (RunContext.dupe_frame true ⟨true, false, 320, 240, 640⟩).state = ⟨true, false, 320, 240, 640⟩ :=
  dupe_frame_precondition true ⟨true, false, 320, 240, 640⟩ (Or.inr rfl)

/-- Claim C4, counterexample: the retro_serialize_size trampoline does
not enforce the non-growing contract; a core answering 1 then 2 makes
the host observe a growing sequence. -/
theorem serialize_size_not_enforced_counterexample :
    ¬ nonGrowing (serialize_size_session [1, 2]) := by
  decide

/-- Claim C4, amended: the dispatcher forwards the size returned by the
core handler unchanged, so the host observes the non-growing contract
exactly when the core itself honours it (the contract is documented on
Core::get_serialize_size as the core's obligation and is not checked by
the trampoline). -/
theorem serialize_size_forwarded_unchanged (core_sizes : List Nat) :
    serialize_size_session core_sizes = core_sizes ∧
    (nonGrowing (serialize_size_session core_sizes) ↔ nonGrowing core_sizes) := by
  have h : serialize_size_session core_sizes = core_sizes := by
    simp [serialize_size_session, retro_serialize_size, List.map_id]
    exact List.map_id core_sizes
  exact ⟨h, by rw [h]⟩

/-- Claim C5, counterexample: the core declared a single subsystem with
game type 1 and a two-element info array, and the host calls
retro_load_game_special with the undeclared game type 99 and seven info
entries; the trampoline still invokes the handler and returns its
status instead of failing the validation. -/
theorem load_game_special_no_validation_counterexample :
    subsystem_args_valid [⟨1, 2⟩] 99 7 = false ∧
    retro_load_game_special (fun _ _ => true) [⟨1, 2⟩] 99 false 7
      = { options_changed_delivered := true, handler_invoked := true, returned := true } := by
  exact ⟨by decide, rfl⟩

/-- Claim C5, amended: retro_load_game_special validates only that the
info pointer is non-null.  With a non-null pointer it delivers the
options-changed hook and forwards game_type and num_info to the handler
unvalidated, whatever subsystems were declared; with a null pointer it
returns false without invoking the handler. -/
theorem load_game_special_forwards_unvalidated
    (handler : Nat → Nat → Bool) (declared : List SubsystemInfo)
    (game_type num_info : Nat) :
    retro_load_game_special handler declared game_type false num_info
      = { options_changed_delivered := true, handler_invoked := true,
          returned := handler game_type num_info } ∧
    retro_load_game_special handler declared game_type true num_info
      = { options_changed_delivered := false, handler_invoked := false,
          returned := false } := by
  exact ⟨rfl, rfl⟩

/-- Claim C6, counterexample: an environment callback that is present
and returns true, but leaves the seeded null string pointer untouched,
makes get_path return an error rather than data, so the success clause
of the claim fails for get_path. -/
theorem get_path_success_callback_counterexample :
    ((fun (_ : Nat) (d : Option String) => (d, true)) 7 none).2 = true ∧
    environment.get_path (some (fun (_ : Nat) (d : Option String) => (d, true))) 7
      = .error (.stringError (.nullPointer "string pointer")) := by
  exact ⟨rfl, rfl⟩

/-- Claim C6, amended: for every marshaling operation and command id, an
absent callback yields the NullPointer error (never a panic: every
operation is a total function here); a present callback returning false
yields Failure; a callback returning true makes get, get_unchecked and
get_mut return the possibly mutated data and set and set_ptr succeed,
while get_path returns the converted path only when the callback also
produced a non-null string pointer, and the NullPointer string error
otherwise. -/
theorem env_marshal_contract {A : Type} [Inhabited A] (zeroed : A)
    (f : Nat → A → A × Bool) (g : Nat → Option String → Option String × Bool)
    (id : Nat) (data ptr : A) :
    (environment.get (none : EnvCallback A) id
      = .error (.nullPointer "retro_environment_t")) ∧
    (environment.get_unchecked (none : EnvCallback A) id zeroed
      = .error (.nullPointer "retro_environment_t")) ∧
    (environment.get_mut (none : EnvCallback A) id data
      = .error (.nullPointer "retro_environment_t")) ∧
    (environment.get_path (none : EnvCallback (Option String)) id
      = .error (.nullPointer "retro_environment_t")) ∧
    (environment.set (none : EnvCallback A) id data
      = .error (.nullPointer "retro_environment_t")) ∧
    (environment.set_ptr (none : EnvCallback A) id ptr
      = .error (.nullPointer "retro_environment_t")) ∧
    (environment.get (some f) id
      = if (f id default).2 then .ok (f id default).1 else .error .failure) ∧
    (environment.get_unchecked (some f) id zeroed
      = if (f id zeroed).2 then .ok (f id zeroed).1 else .error .failure) ∧
    (environment.get_mut (some f) id data
      = if (f id data).2 then .ok (f id data).1 else .error .failure) ∧
    (environment.set (some f) id data
      = if (f id data).2 then .ok () else .error .failure) ∧
    (environment.set_ptr (some f) id ptr
      = if (f id ptr).2 then .ok () else .error .failure) ∧
    (environment.get_path (some g) id
      = if (g id none).2 then
          (match (g id none).1 with
           | some s => .ok s
           | none => .error (.stringError (.nullPointer "string pointer")))
        else .error .failure) := by
  refine ⟨rfl, rfl, rfl, rfl, rfl, rfl, ?_, ?_, ?_, ?_, ?_, ?_⟩ <;>
    simp only [environment.get, environment.get_unchecked, environment.get_mut,
      environment.set, environment.set_ptr, environment.get_path,
      environment.get_path_from_pointer] <;>
    rcases hb : (f id default).2 <;>
    rcases hb2 : (f id zeroed).2 <;>
    rcases hb3 : (f id data).2 <;>
    rcases hb4 : (f id ptr).2 <;>
    rcases hb5 : (g id none).2 <;>
    simp [hb, hb2, hb3, hb4, hb5] <;>
    rcases hp : (g id none).1 <;>
    simp [hp]

/-- Claim C7: in every retro_run invocation the options-changed hook is
delivered exactly when the variable-update query returned true or
failed (a failed check is treated as changed); any delivery happens at
the very front of the event sequence, and on_run is always the final
event, so a delivery always precedes on_run and a false query reaches
on_run with no delivery at all. -/
theorem retro_run_options_changed_before_run
    (variable_update : Except EnvironmentCallError Bool)
    (input_poll_present : Bool) :
    (RunEvent.optionsChanged ∈ retro_run_events variable_update input_poll_present
      ↔ (variable_update = .ok true ∨ ∃ e, variable_update = .error e)) ∧
    ((retro_run_events variable_update input_poll_present).getLast? = some RunEvent.run) ∧
    ((retro_run_events variable_update input_poll_present).head? = some RunEvent.optionsChanged
      ↔ RunEvent.optionsChanged ∈ retro_run_events variable_update input_poll_present) := by
  rcases variable_update with e | b
  · cases input_poll_present <;>
      simp [retro_run_events]
  · cases b <;> cases input_poll_present <;>
      simp [retro_run_events]

/-- Claim C8: every conversion of a non-generic scoped context into
GenericContext is a plain total function that copies the environment
callback reference and the registry handle unchanged (cloning the Arc
yields a handle to the same registry), and the list of conversions
defined in contexts/mod.rs contains none whose source is the generic
context. -/
theorem context_into_generic_identity_preserving {E R C : Type}
    (c1 : InitContext E R) (c2 : SetEnvironmentContext E R)
    (c3 : GetAvInfoContext E R) (c4 : OptionsChangedContext E R)
    (c5 : LoadGameContext E R) (c6 : LoadGameSpecialContext E R)
    (c7 : RunContextS E R C) (c8 : AudioContext E R C) :
    (c1.into_generic.environment_callback = c1.environment_callback ∧
      c1.into_generic.interfaces = c1.interfaces) ∧
    (c2.into_generic.environment_callback = c2.environment_callback ∧
      c2.into_generic.interfaces = c2.interfaces) ∧
    (c3.into_generic.environment_callback = c3.environment_callback ∧
      c3.into_generic.interfaces = c3.interfaces) ∧
    (c4.into_generic.environment_callback = c4.environment_callback ∧
      c4.into_generic.interfaces = c4.interfaces) ∧
    (c5.into_generic.environment_callback = c5.environment_callback ∧
      c5.into_generic.interfaces = c5.interfaces) ∧
    (c6.into_generic.environment_callback = c6.environment_callback ∧
      c6.into_generic.interfaces = c6.interfaces) ∧
    (c7.into_generic.environment_callback = c7.environment_callback ∧
      c7.into_generic.interfaces = c7.interfaces) ∧
    (c8.into_generic.environment_callback = c8.environment_callback ∧
      c8.into_generic.interfaces = c8.interfaces) ∧
    (context_conversions.all (fun p => p.1 != CtxKind.generic) = true) := by
  refine ⟨⟨rfl, rfl⟩, ⟨rfl, rfl⟩, ⟨rfl, rfl⟩, ⟨rfl, rfl⟩, ⟨rfl, rfl⟩, ⟨rfl, rfl⟩,
    ⟨rfl, rfl⟩, ⟨rfl, rfl⟩, ?_⟩
  decide

/-- Claim C9, counterexample: the legacy variable string for the schema
with declared default "true" and values false, true, unstable keeps the
declared value order, so a host ignorant of defaults offers "false";
the declared default "true" is not what the host is offered, hence the
encoding does not round-trip the default. -/
theorem legacy_default_not_roundtripped_counterexample :
    legacy_variable_value example_option = "Example Option; false|true|unstable" ∧
    host_offered_token (legacy_variable_value example_option) = some "false" ∧
    example_option.default_value = some "true" ∧
    host_offered_token (legacy_variable_value example_option) ≠ example_option.default_value := by
  refine ⟨by decide, by decide, rfl, by decide⟩

/-- Claim C9, amended: the legacy encoding is the description, a
semicolon-space, and the pipe-joined values in declared order; it does
not depend on the declared default at all, so a host ignorant of
defaults always offers the first-listed token ("false" for the example
schema) and the declared default is conveyed only by the v1/v2
encodings. -/
theorem legacy_variable_ignores_default (option : CoreOption)
    (other_default : Option String) :
    legacy_variable_value { option with default_value := other_default }
      = legacy_variable_value option ∧
    legacy_variable example_option
      = ("example_key", "Example Option; false|true|unstable") ∧
    host_offered_token (legacy_variable_value example_option) = some "false" := by
  refine ⟨rfl, by decide, by decide⟩

/-- Claim C10, counterexample: with no host framebuffer available, the
fallback branch for a 2 by 1 XRGB8888 request reports pitch 8 but
data_len 16 = width * height * pitch, not height * pitch = 8, so the
declared byte length is not consistent with the geometry in the
fallback branch. -/
theorem fallback_framebuffer_data_len_counterexample :
    (RunContext.get_current_framebuffer_or_fallback none 2 1 3 PixelFormat.xrgb8888 0).1.data_len
        = 16 ∧
    (RunContext.get_current_framebuffer_or_fallback none 2 1 3 PixelFormat.xrgb8888 0).1.height
        * (RunContext.get_current_framebuffer_or_fallback none 2 1 3 PixelFormat.xrgb8888 0).1.pitch
        = 8 ∧
    (RunContext.get_current_framebuffer_or_fallback none 2 1 3 PixelFormat.xrgb8888 0).1.data_len
      ≠ (RunContext.get_current_framebuffer_or_fallback none 2 1 3 PixelFormat.xrgb8888 0).1.height
        * (RunContext.get_current_framebuffer_or_fallback none 2 1 3 PixelFormat.xrgb8888 0).1.pitch := by
  refine ⟨by decide, by decide, by decide⟩

/-- Claim C10, amended: a Framebuffer obtained from the host branch
(get_current_framebuffer returning ok) always satisfies
data_len = height * pitch, while the fallback branch returns the
requested geometry with pitch = width * bytes-per-pixel but
data_len = width * height * pitch, the byte length it grew the scratch
buffer to. -/
theorem framebuffer_data_len_formulas (callback : EnvCallback RetroFramebuffer)
    (w h a len : Nat) (f : PixelFormat) (fb : Framebuffer)
    (hok : RunContext.get_current_framebuffer callback w h a f = .ok fb) :
    fb.data_len = fb.height * fb.pitch ∧
    (RunContext.get_current_framebuffer_or_fallback none w h a f len).1
      = { data_len := w * h * (w * f.bit_per_pixel), width := w, height := h,
          pitch := w * f.bit_per_pixel, format := f,
          access_flags := MemoryAccess.READ ||| MemoryAccess.WRITE,
          memory_flags := MemoryType.UNCACHED } := by
  constructor
  · rcases henv : environment.get_mut callback 1000
        { data_null := true, width := w, height := h, pitch := 0,
          format := f, access_flags := a, memory_flags := 0 } with e | rfb
    · simp [RunContext.get_current_framebuffer, henv] at hok
    · by_cases hn : rfb.data_null
      · simp [RunContext.get_current_framebuffer, henv, hn] at hok
      · simp [RunContext.get_current_framebuffer, henv, hn] at hok
        rw [← hok]
  · simp [RunContext.get_current_framebuffer_or_fallback,
      RunContext.get_current_framebuffer, environment.get_mut]

/-- Witness for C10: a host that hands back the requested struct with a
non-null data pointer and pitch 256 yields a Framebuffer with
data_len = 1 * 256 = height * pitch. -/
theorem framebuffer_data_len_formulas_witness :
    (⟨256, 2, 1, 256, PixelFormat.xrgb8888, 3, 0⟩ : Framebuffer).data_len
      = (⟨256, 2, 1, 256, PixelFormat.xrgb8888, 3, 0⟩ : Framebuffer).height
        * (⟨256, 2, 1, 256, PixelFormat.xrgb8888, 3, 0⟩ : Framebuffer).pitch ∧
    (RunContext.get_current_framebuffer_or_fallback none 2 1 3 PixelFormat.xrgb8888 5).1
      = { data_len := 2 * 1 * (2 * PixelFormat.xrgb8888.bit_per_pixel), width := 2, height := 1,
          pitch := 2 * PixelFormat.xrgb8888.bit_per_pixel, format := PixelFormat.xrgb8888,
          access_flags := MemoryAccess.READ ||| MemoryAccess.WRITE,
          memory_flags := MemoryType.UNCACHED } :=
  framebuffer_data_len_formulas
    (some (fun _ r => ({ r with data_null := false, pitch := 256 }, true)))
    2 1 3 5 PixelFormat.xrgb8888
    ⟨256, 2, 1, 256, PixelFormat.xrgb8888, 3, 0⟩
    rfl
